import Mathlib

/-!
Shallow embedding of the browser client's pricing, checkout and
order-tracking logic.  Prices are modelled as rationals and quantities as
naturals; the JavaScript arithmetic on these values is exact at the scales
the pages handle, so rational arithmetic is the faithful embedding.
-/

/-- A cart line item as the pages consume it: product id, unit price
(`item.product.price`) and quantity (`item.quantity`). -/
structure CartItem where
  productId : String
  price : ℚ
  quantity : ℕ
deriving DecidableEq, Repr

namespace Cart

/-- Client state of the Cart page: the fetched cart items, the
discount-code input field, and the `discount` React state (initially 0). -/
structure State where
  items : List CartItem
  discountCode : String
  discount : ℚ
deriving DecidableEq, Repr

/-- Embeds `cart.items.reduce((sum, item) => sum + item.product.price *
item.quantity, 0)`. -/
def subtotal (items : List CartItem) : ℚ :=
  items.foldl (fun sum item => sum + item.price * (item.quantity : ℚ)) 0

/-- Embeds `const shipping = subtotal > 500 ? 0 : 50;`. -/
def shipping (items : List CartItem) : ℚ :=
  if subtotal items > 500 then 0 else 50

/-- Embeds `const total = subtotal + shipping - discount;` where `discount`
is the stored state value, not a derived quantity. -/
def total (s : State) : ℚ :=
  subtotal s.items + shipping s.items - s.discount

/-- Embeds `applyDiscount`: when the typed code equals the literal SAVE10 it
stores `subtotal * 0.1` in the discount state and signals success, otherwise
it changes nothing and signals an invalid code. -/
def applyDiscount (s : State) : State × Bool :=
  if s.discountCode = "SAVE10" then
    ({ s with discount := subtotal s.items * (1 / 10) }, true)
  else
    (s, false)

/-- Every cart mutation re-fetches the cart, replacing the items; the
discount-code input and the discount state persist across the re-fetch. -/
def setItems (s : State) (items : List CartItem) : State :=
  { s with items := items }

/-- Typing into the discount-code input. -/
def setDiscountCode (s : State) (code : String) : State :=
  { s with discountCode := code }

/-- The two renders of the Cart page body. -/
inductive Render
  | emptyView
  | cartView
deriving DecidableEq, Repr

/-- Embeds the early return `if (cart.items.length === 0)` showing the
empty-cart view instead of the summary. -/
def render (items : List CartItem) : Render :=
  if items.length = 0 then .emptyView else .cartView

end Cart

namespace Checkout

/-- An address record as built by the checkout address form. -/
structure Address where
  full_name : String
  phone : String
  address_line : String
  city : String
  state : String
  pincode : String
  is_default : Bool
deriving DecidableEq, Repr

/-- Embeds `cart.items.reduce((sum, item) => sum + item.product.price *
item.quantity, 0)` on the Checkout page. -/
def subtotal (items : List CartItem) : ℚ :=
  items.foldl (fun sum item => sum + item.price * (item.quantity : ℚ)) 0

/-- Embeds `const shipping = subtotal > 500 ? 0 : 50;` on the Checkout page. -/
def shipping (items : List CartItem) : ℚ :=
  if subtotal items > 500 then 0 else 50

/-- Embeds `const discount = subtotal * 0.1;` — unconditional, with no
discount-code state anywhere on the page. -/
def discount (items : List CartItem) : ℚ :=
  subtotal items * (1 / 10)

/-- Embeds `const total = subtotal + shipping - discount;`. -/
def total (items : List CartItem) : ℚ :=
  subtotal items + shipping items - discount items

/-- The body posted to the order-creation endpoint by `placeOrder`. -/
structure OrderRequest where
  items : List (String × ℕ)
  shipping_address : Address
  payment_method : String
  discount_code : String
deriving DecidableEq, Repr

/-- Outcome of one `placeOrder` invocation: the early validation return, or
the remote order-creation request it posts. -/
inductive PlaceOrderOutcome
  | validationError
  | request (r : OrderRequest)
deriving DecidableEq, Repr

/-- Embeds `placeOrder`: with no selected address it shows the validation
toast and returns before any remote call; otherwise it posts the item list
(product id and quantity only), the chosen address, the payment method, and
the hard-coded literal `discount_code: 'SAVE10'`. -/
def placeOrder (selectedAddress : Option Address) (items : List CartItem)
    (paymentMethod : String) : PlaceOrderOutcome :=
  match selectedAddress with
  | none => .validationError
  | some addr =>
      .request
        { items := items.map (fun item => (item.productId, item.quantity)),
          shipping_address := addr,
          payment_method := paymentMethod,
          discount_code := "SAVE10" }

/-- The remote order-creation requests issued by one `placeOrder` outcome:
none on the validation failure, the posted request otherwise. -/
def remoteRequests : PlaceOrderOutcome → List OrderRequest
  | .validationError => []
  | .request r => [r]

/-- The two behaviours of the Checkout page body. -/
inductive Entry
  | redirectToCart
  | page
deriving DecidableEq, Repr

/-- Embeds the early return `if (cart.items.length === 0) navigate('/cart')`
on the Checkout page. -/
def entry (items : List CartItem) : Entry :=
  if items.length = 0 then .redirectToCart else .page

end Checkout

namespace OrderTracking

/-- The `key` fields of the five-stage `orderStatuses` array, in order. -/
def orderStatuses : List String :=
  ["ordered", "processed", "shipped", "out_for_delivery", "delivered"]

/-- Embeds `orderStatuses.findIndex(s => s.key === status)`; JavaScript
findIndex yields -1 when no element matches. -/
def getStatusIndex (status : String) : Int :=
  match List.findIdx? (fun s => s = status) orderStatuses with
  | some i => (i : Int)
  | none => -1

/-- Embeds `const isCompleted = index <= currentStatusIndex;` for the stage
at position `index`. -/
def isCompleted (index : ℕ) (status : String) : Bool :=
  decide ((index : Int) ≤ getStatusIndex status)

/-- Embeds `const isCurrent = index === currentStatusIndex;` for the stage
at position `index`. -/
def isCurrent (index : ℕ) (status : String) : Bool :=
  decide ((index : Int) = getStatusIndex status)

/-- Embeds the render guard of the Request Return dialog:
`order.status === 'delivered' && order.status !== 'return_requested'`. -/
def returnAvailable (status : String) : Bool :=
  (status == "delivered") && !(status == "return_requested")

/-- Outcomes of a user attempt to request a return. -/
inductive ReturnOutcome
  | notAvailable
  | blockedEmptyReason
  | submitted (orderId reason : String)
deriving DecidableEq, Repr

/-- A user attempt to request a return: the dialog only exists when the
render guard holds; the `required` reason textarea blocks submission while
empty; otherwise `requestReturn` posts the order id and reason. -/
def requestReturn (status orderId reason : String) : ReturnOutcome :=
  if !(returnAvailable status) then .notAvailable
  else if reason = "" then .blockedEmptyReason
  else .submitted orderId reason

end OrderTracking

/-- The reduce over items with an arbitrary accumulator equals the
accumulator plus the sum of price times quantity. -/
theorem foldl_price_sum (l : List CartItem) (a : ℚ) :
    l.foldl (fun sum item => sum + item.price * (item.quantity : ℚ)) a
      = a + (l.map (fun item => item.price * (item.quantity : ℚ))).sum := by
  induction l generalizing a with
  | nil => simp
  | cons x xs ih =>
      simp only [List.foldl_cons, List.map_cons, List.sum_cons, ih]
      ring

/-- The Cart page's reduce-based subtotal is the sum over all items of unit
price times quantity. -/
theorem cart_subtotal_eq (items : List CartItem) :
    Cart.subtotal items
      = (items.map (fun item => item.price * (item.quantity : ℚ))).sum := by
  simpa using foldl_price_sum items 0

/-- The Checkout page's reduce-based subtotal is the sum over all items of
unit price times quantity. -/
theorem checkout_subtotal_eq (items : List CartItem) :
    Checkout.subtotal items
      = (items.map (fun item => item.price * (item.quantity : ℚ))).sum := by
  simpa using foldl_price_sum items 0

/-- C1: on both the Cart page and the Checkout page the displayed total
equals subtotal + shipping - discount, where the subtotal is the sum over
all items of unit price times quantity. -/
theorem c1_total_formula (s : Cart.State) (items : List CartItem) :
    Cart.total s = Cart.subtotal s.items + Cart.shipping s.items - s.discount
    ∧ Cart.subtotal s.items
        = (s.items.map (fun item => item.price * (item.quantity : ℚ))).sum
    ∧ Checkout.total items
        = Checkout.subtotal items + Checkout.shipping items
            - Checkout.discount items
    ∧ Checkout.subtotal items
        = (items.map (fun item => item.price * (item.quantity : ℚ))).sum :=
  ⟨rfl, cart_subtotal_eq s.items, rfl, checkout_subtotal_eq items⟩

/-- C2: on both pages the shipping fee is exactly 0 when the subtotal is
strictly greater than 500 and exactly 50 otherwise, so a subtotal of
exactly 500 yields shipping 50. -/
theorem c2_shipping_threshold (items : List CartItem) :
    (Cart.subtotal items > 500 → Cart.shipping items = 0)
    ∧ (Cart.subtotal items ≤ 500 → Cart.shipping items = 50)
    ∧ (Checkout.subtotal items > 500 → Checkout.shipping items = 0)
    ∧ (Checkout.subtotal items ≤ 500 → Checkout.shipping items = 50) := by
  refine ⟨fun h => ?_, fun h => ?_, fun h => ?_, fun h => ?_⟩
  · simp [Cart.shipping, h]
  · simp [Cart.shipping, not_lt.mpr h]
  · simp [Checkout.shipping, h]
  · simp [Checkout.shipping, not_lt.mpr h]

/-- Witness for C2 at the boundary: a single item of price 500 and
quantity 1 has subtotal exactly 500 and shipping 50. -/
theorem c2_shipping_threshold_witness :
    Cart.subtotal [⟨"p", 500, 1⟩] ≤ 500 ∧ Cart.shipping [⟨"p", 500, 1⟩] = 50 :=
  ⟨by simp [Cart.subtotal],
    (c2_shipping_threshold [⟨"p", 500, 1⟩]).2.1 (by simp [Cart.subtotal])⟩

/-- C3 counterexample: for the empty item sequence the computed shipping is
50 and the computed total is 50 on both pages, not 0 as claimed. -/
theorem c3_counterexample :
    Cart.shipping [] = 50 ∧ Cart.total ⟨[], "", 0⟩ = 50
    ∧ Checkout.shipping [] = 50 ∧ Checkout.total [] = 50
    ∧ (50 : ℚ) ≠ 0 := by
  norm_num [Cart.shipping, Cart.total, Cart.subtotal,
    Checkout.shipping, Checkout.total, Checkout.subtotal, Checkout.discount]

/-- C3 amended: for the empty item sequence subtotal and discount are 0 but
shipping and total are 50; neither page displays these values, since the
Cart page renders the empty-cart view and the Checkout page redirects to
the cart. -/
theorem c3_empty_cart :
    Cart.subtotal [] = 0 ∧ Cart.shipping [] = 50 ∧ Cart.total ⟨[], "", 0⟩ = 50
    ∧ Checkout.subtotal [] = 0 ∧ Checkout.discount [] = 0
    ∧ Checkout.shipping [] = 50 ∧ Checkout.total [] = 50
    ∧ Cart.render [] = Cart.Render.emptyView
    ∧ Checkout.entry [] = Checkout.Entry.redirectToCart := by
  norm_num [Cart.subtotal, Cart.shipping, Cart.total,
    Checkout.subtotal, Checkout.discount, Checkout.shipping, Checkout.total,
    Cart.render, Checkout.entry]

/-- C4 counterexample: after SAVE10 has been applied at subtotal 600 the
discount is 60; applying the string WRONG then signals invalid but leaves
the discount at 60, not 0 as the claim states for any non-SAVE10 string. -/
theorem c4_counterexample :
    (Cart.applyDiscount
        (Cart.setDiscountCode
          (Cart.applyDiscount ⟨[⟨"p", 600, 1⟩], "SAVE10", 0⟩).1 "WRONG")).2
        = false
    ∧ (Cart.applyDiscount
        (Cart.setDiscountCode
          (Cart.applyDiscount ⟨[⟨"p", 600, 1⟩], "SAVE10", 0⟩).1 "WRONG")).1.discount
        = 60
    ∧ (60 : ℚ) ≠ 0 := by
  have hw : ¬ ("WRONG" : String) = "SAVE10" := by decide
  norm_num [Cart.applyDiscount, Cart.setDiscountCode, Cart.subtotal, hw]

/-- C4 amended: applying a discount code sets the discount to subtotal
times one tenth with a success signal exactly when the code is SAVE10; any
other string leaves the state unchanged (so the discount stays 0 when no
valid code was applied before) and signals an invalid code. -/
theorem c4_apply_discount (s : Cart.State) :
    (s.discountCode = "SAVE10" →
      Cart.applyDiscount s
        = ({ s with discount := Cart.subtotal s.items * (1 / 10) }, true))
    ∧ (s.discountCode ≠ "SAVE10" → Cart.applyDiscount s = (s, false))
    ∧ (s.discount = 0 → (Cart.applyDiscount s).1.discount ≠ 0 →
        s.discountCode = "SAVE10") := by
  refine ⟨fun h => ?_, fun h => ?_, fun h0 hne => ?_⟩
  · simp [Cart.applyDiscount, h]
  · simp [Cart.applyDiscount, h]
  · by_contra hc
    simp [Cart.applyDiscount, hc, h0] at hne

/-- Witness for C4: applying WRONG to a fresh cart state leaves it
unchanged and signals invalid. -/
theorem c4_apply_discount_witness :
    Cart.applyDiscount ⟨[⟨"p", 600, 1⟩], "WRONG", 0⟩
      = (⟨[⟨"p", 600, 1⟩], "WRONG", 0⟩, false) :=
  (c4_apply_discount ⟨[⟨"p", 600, 1⟩], "WRONG", 0⟩).2.1 (by decide)

/-- C5 counterexample: apply SAVE10 at subtotal 600 (discount becomes 60),
then change the quantity to 2 (new subtotal 1200); the displayed discount
is still 60 while the new subtotal times one tenth is 120. -/
theorem c5_counterexample :
    (Cart.setItems (Cart.applyDiscount ⟨[⟨"p", 600, 1⟩], "SAVE10", 0⟩).1
        [⟨"p", 600, 2⟩]).discount = 60
    ∧ Cart.subtotal [⟨"p", 600, 2⟩] * (1 / 10) = 120
    ∧ (60 : ℚ) ≠ 120 := by
  norm_num [Cart.setItems, Cart.applyDiscount, Cart.subtotal]

/-- C5 amended: when the items change, the displayed subtotal, shipping and
total are re-evaluated from the current items, but the displayed discount
is the cached value from the last successful apply and is carried over
unchanged rather than re-evaluated. -/
theorem c5_reevaluation (s : Cart.State) (items : List CartItem) :
    Cart.subtotal (Cart.setItems s items).items = Cart.subtotal items
    ∧ Cart.shipping (Cart.setItems s items).items = Cart.shipping items
    ∧ Cart.total (Cart.setItems s items)
        = Cart.subtotal items + Cart.shipping items - s.discount
    ∧ (Cart.setItems s items).discount = s.discount :=
  ⟨rfl, rfl, rfl, rfl⟩

/-- C6: for the k-th linear status of the five-stage list, the projection
marks stage i completed exactly when i ≤ k and current exactly when i = k,
so every later stage is pending. -/
theorem c6_timeline_projection :
    ∀ k : Fin 5, ∀ i : Fin 5,
      (OrderTracking.isCompleted i.val (OrderTracking.orderStatuses.getD k.val "")
          = decide (i.val ≤ k.val))
      ∧ (OrderTracking.isCurrent i.val (OrderTracking.orderStatuses.getD k.val "")
          = decide (i.val = k.val)) := by
  decide

/-- C7: for the side states cancelled and return_requested the status-index
lookup returns -1 rather than failing, and every one of the five stages is
then neither completed nor current. -/
theorem c7_side_states :
    OrderTracking.getStatusIndex "cancelled" = -1
    ∧ OrderTracking.getStatusIndex "return_requested" = -1
    ∧ ∀ i : Fin 5,
        OrderTracking.isCompleted i.val "cancelled" = false
        ∧ OrderTracking.isCurrent i.val "cancelled" = false
        ∧ OrderTracking.isCompleted i.val "return_requested" = false
        ∧ OrderTracking.isCurrent i.val "return_requested" = false := by
  decide

/-- C8: with no selected address, placeOrder fails with the validation
error and issues no remote request; with an empty cart the checkout entry
path redirects to the cart view instead of creating an order. -/
theorem c8_place_order_preconditions (items : List CartItem) (pm : String) :
    Checkout.placeOrder none items pm
        = Checkout.PlaceOrderOutcome.validationError
    ∧ Checkout.remoteRequests (Checkout.placeOrder none items pm) = []
    ∧ Checkout.entry [] = Checkout.Entry.redirectToCart :=
  ⟨rfl, rfl, rfl⟩

/-- C9: a return request reaches submission exactly when the order status
is delivered and the reason is non-empty; any other status (in particular
shipped) leaves the return action unavailable. -/
theorem c9_return_preconditions (status orderId reason : String) :
    (OrderTracking.requestReturn status orderId reason
        = OrderTracking.ReturnOutcome.submitted orderId reason
      ↔ (status = "delivered" ∧ reason ≠ ""))
    ∧ (status ≠ "delivered" →
        OrderTracking.requestReturn status orderId reason
          = OrderTracking.ReturnOutcome.notAvailable)
    ∧ OrderTracking.requestReturn "shipped" orderId reason
        = OrderTracking.ReturnOutcome.notAvailable := by
  refine ⟨?_, fun h => ?_, rfl⟩
  · by_cases hd : status = "delivered"
    · subst hd
      by_cases hr : reason = ""
      · simp [OrderTracking.requestReturn, OrderTracking.returnAvailable, hr]
      · simp [OrderTracking.requestReturn, OrderTracking.returnAvailable, hr]
    · simp [OrderTracking.requestReturn, OrderTracking.returnAvailable, hd]
  · simp [OrderTracking.requestReturn, OrderTracking.returnAvailable, h]

/-- Witness for C9: a return attempt on a shipped order is unavailable. -/
theorem c9_return_preconditions_witness :
    OrderTracking.requestReturn "shipped" "o1" "defective"
      = OrderTracking.ReturnOutcome.notAvailable :=
  (c9_return_preconditions "shipped" "o1" "defective").2.1 (by decide)

/-- C10: for every non-empty cart the checkout page renders (no redirect),
its displayed discount is one tenth of the subtotal, and the order-creation
request always carries the literal discount code SAVE10, with the item list
reduced to product id and quantity. -/
theorem c10_checkout_hardcoded (items : List CartItem)
    (addr : Checkout.Address) (pm : String) (h : items ≠ []) :
    Checkout.entry items = Checkout.Entry.page
    ∧ Checkout.discount items
        = (items.map (fun item => item.price * (item.quantity : ℚ))).sum
            * (1 / 10)
    ∧ ∃ r, Checkout.placeOrder (some addr) items pm
          = Checkout.PlaceOrderOutcome.request r
        ∧ r.discount_code = "SAVE10"
        ∧ r.items = items.map (fun item => (item.productId, item.quantity)) := by
  refine ⟨?_, ?_, ⟨_, rfl, rfl, rfl⟩⟩
  · simp [Checkout.entry, List.length_eq_zero, h]
  · rw [Checkout.discount, checkout_subtotal_eq]

/-- Witness for C10: a concrete one-item cart renders the checkout page and
posts the hard-coded SAVE10 request. -/
theorem c10_checkout_hardcoded_witness :
    Checkout.entry [⟨"p", 100, 2⟩] = Checkout.Entry.page
    ∧ Checkout.discount [⟨"p", 100, 2⟩]
        = (([⟨"p", 100, 2⟩] : List CartItem).map
            (fun item => item.price * (item.quantity : ℚ))).sum * (1 / 10)
    ∧ ∃ r, Checkout.placeOrder (some ⟨"A", "1", "L", "C", "S", "0", false⟩)
            [⟨"p", 100, 2⟩] "upi"
          = Checkout.PlaceOrderOutcome.request r
        ∧ r.discount_code = "SAVE10"
        ∧ r.items = ([⟨"p", 100, 2⟩] : List CartItem).map
            (fun item => (item.productId, item.quantity)) :=
  c10_checkout_hardcoded [⟨"p", 100, 2⟩] ⟨"A", "1", "L", "C", "S", "0", false⟩
    "upi" (List.cons_ne_nil _ _)
